import Mathlib

/-
Shallow embedding of src/qgis_server_render_geojson/render_geojson.py.

The module is a QGIS server filter. Its pure core is:
  * handle_requests : parameter validation (GEOJSON, STYLE, WIDTH, HEIGHT,
    DPI, BBOX), resource resolution via _resolve_url, construction of three
    typed vector layers, and one render-engine invocation;
  * _resolve_url : local-prefix lookup, falling back to a single
    urllib.request.urlretrieve call (only ValueError is converted to
    ParameterError; any other exception propagates);
  * responseComplete : the dispatcher, claiming requests whose SERVICE
    parameter upper-cases to RENDERGEOJSON.

External collaborators (filesystem existence, urlretrieve, the render
engine) are modelled as components of an explicit environment record.
Python exceptions are modelled by an error type distinguishing
ParameterError (caught specially by the dispatcher) from every other
exception (which reaches the generic handler).
-/

namespace RenderGeojson

/-- Value of one decimal digit character. -/
def digitVal (c : Char) : Nat := c.toNat - 48

/-- Natural number denoted by a digit list, most significant first. -/
def digitsToNat (cs : List Char) : Nat :=
  cs.foldl (fun a c => a * 10 + digitVal c) 0

/-- Strip leading and trailing whitespace, as Python's str.strip does
before int()/float() parse the text. -/
def trimChars (cs : List Char) : List Char :=
  ((cs.dropWhile Char.isWhitespace).reverse.dropWhile Char.isWhitespace).reverse

/-- Embedding of Python `int(s)` on a string argument: optional sign then a
nonempty digit run, surrounding whitespace ignored; `none` models the
ValueError that int() raises otherwise.  (Python's underscore digit
separators are not modelled; no claim involves them.) -/
def pyInt (s : String) : Option Int :=
  let cs := trimChars s.toList
  let signed : Int × List Char :=
    match cs with
    | '-' :: r => (-1, r)
    | '+' :: r => (1, r)
    | _ => (1, cs)
  let ds := signed.2
  if ds ≠ [] ∧ ds.all Char.isDigit then
    some (signed.1 * (digitsToNat ds : Int))
  else
    none

/-- Exponent suffix of a Python float literal: optional sign then a
nonempty digit run. -/
def pyFloatExp (cs : List Char) : Option Int :=
  match cs with
  | [] => none
  | '-' :: r => if r ≠ [] ∧ r.all Char.isDigit then some (-(digitsToNat r : Int)) else none
  | '+' :: r => if r ≠ [] ∧ r.all Char.isDigit then some ((digitsToNat r : Int)) else none
  | _ => if cs.all Char.isDigit then some ((digitsToNat cs : Int)) else none

/-- Exact decimal value written by a Python float literal: it denotes
`(if neg then -1 else 1) * mantissa / 10 ^ fracLen * 10 ^ exp10`. -/
structure DecimalRep where
  neg : Bool
  mantissa : Nat
  fracLen : Nat
  exp10 : Int
deriving DecidableEq

/-- Rational value of a decimal representation (exact; IEEE rounding of
Python floats is not modelled). -/
def DecimalRep.toRat (d : DecimalRep) : Rat :=
  (if d.neg then -1 else 1) * (d.mantissa : Rat) / ((10 : Rat) ^ d.fracLen) * (10 : Rat) ^ d.exp10

/-- Parsing part of Python `float(s)`: optional sign, decimal mantissa with
optional fraction, optional exponent; `none` models the ValueError raised
on malformed input.  (inf/nan literals and underscore separators are not
modelled — no claim involves them.) -/
def pyFloatParse (s : String) : Option DecimalRep :=
  let cs := trimChars s.toList
  let signed : Bool × List Char :=
    match cs with
    | '-' :: r => (true, r)
    | '+' :: r => (false, r)
    | _ => (false, cs)
  let ip := signed.2.takeWhile Char.isDigit
  let rest := signed.2.dropWhile Char.isDigit
  let frac : List Char × List Char :=
    match rest with
    | '.' :: r => (r.takeWhile Char.isDigit, r.dropWhile Char.isDigit)
    | _ => ([], rest)
  if ip = [] ∧ frac.1 = [] then none
  else
    let rep : Int → DecimalRep := fun ex =>
      { neg := signed.1
        mantissa := digitsToNat ip * 10 ^ frac.1.length + digitsToNat frac.1
        fracLen := frac.1.length
        exp10 := ex }
    match frac.2 with
    | [] => some (rep 0)
    | c :: r =>
      if c = 'e' ∨ c = 'E' then (pyFloatExp r).map rep
      else none

/-- Embedding of Python `float(s)` as an exact rational. -/
def pyFloat (s : String) : Option Rat :=
  (pyFloatParse s).map DecimalRep.toRat

/-- Embedding of Python `s.split(',')` (always at least one component;
empty components preserved). -/
def splitComma (cs : List Char) : List (List Char) :=
  match cs with
  | [] => [[]]
  | c :: rest =>
    let r := splitComma rest
    if c = ',' then [] :: r
    else
      match r with
      | h :: t => (c :: h) :: t
      | [] => [[c]]

/-- Split a string on commas, Python `s.split(',')`. -/
def splitCommaStr (s : String) : List String :=
  (splitComma s.toList).map (fun cs => String.mk cs)

/-- Whether `pat` is a prefix of `cs` (character-wise). -/
def isPrefixOfChars : List Char → List Char → Bool
  | [], _ => true
  | _ :: _, [] => false
  | a :: as, b :: bs => a = b && isPrefixOfChars as bs

/-- Whether `pat` occurs as a contiguous substring of `cs`: embedding of
Python `pat in s`. -/
def containsSub (pat : List Char) : List Char → Bool
  | [] => isPrefixOfChars pat []
  | c :: rest => isPrefixOfChars pat (c :: rest) || containsSub pat rest

/-- String form of `containsSub`, Python `pat in s`. -/
def containsTok (s pat : String) : Bool :=
  containsSub pat.toList s.toList

/-- Replace every occurrence of the five-character pattern `$type` by
`rep`, scanning left to right: embedding of Python
`s.replace('$type', r)` specialised to the one pattern the source uses
(the literal pattern is matched structurally so the recursion is
structural). -/
def replaceTypeChars (rep : List Char) : List Char → List Char
  | '$' :: 't' :: 'y' :: 'p' :: 'e' :: rest => rep ++ replaceTypeChars rep rest
  | c :: rest => c :: replaceTypeChars rep rest
  | [] => []

/-- Embedding of Python `s.replace("$type", rep)`. -/
def replaceTypeTok (s rep : String) : String :=
  String.mk (replaceTypeChars rep.toList s.toList)

/-- Embedding of Python `"$type" in s`. -/
def hasTypeTok (s : String) : Bool :=
  containsTok s "$type"

/-- A Python exception as the dispatcher sees it: `parameterError` is the
module's ParameterError class (caught specially in responseComplete);
`pyError` is any other exception, carrying `type(e).__name__` and the
message. -/
inductive HErr where
  | parameterError (msg : String)
  | pyError (excName : String) (msg : String)
deriving DecidableEq

/-- Python `type(e).__name__` for a modelled exception. -/
def HErr.excTypeName : HErr → String
  | .parameterError _ => "ParameterError"
  | .pyError n _ => n

/-- Message text carried by a modelled exception, Python `str(e)`. -/
def HErr.text : HErr → String
  | .parameterError m => m
  | .pyError _ m => m

/-- Outcome of one `urllib.request.urlretrieve(url)` call: success with a
temporary local path, a ValueError (e.g. unknown url type — the only
exception the source catches), or any other exception (URLError, etc.). -/
inductive FetchResult where
  | ok (localPath : String)
  | valueError (msg : String)
  | failed (excName : String) (msg : String)
deriving DecidableEq

/-- A vector layer as handle_requests constructs it: data-source string,
layer name, provider key, and the local path of the style that
_load_style applied to it (the style file's content is external to this
model, so the layer records the path it was loaded from). -/
structure VectorLayer where
  source : String
  name : String
  provider : String
  style : String
deriving DecidableEq

/-- The QgsMapSettings configuration handed to the render job. -/
structure MapSettings where
  outputWidth : Int
  outputHeight : Int
  outputDpi : Int
  extent : Rat × Rat × Rat × Rat
  layers : List VectorLayer
  backgroundTransparent : Bool
deriving DecidableEq

/-- The external collaborators of the filter, as an explicit environment:
the QGIS_RENDERGEOJSON_PREFIX configuration (`none` models an unset or
empty, i.e. falsy, value), os.path.exists, urllib.request.urlretrieve,
and the rendering engine (which maps the settings to PNG bytes, modelled
as an opaque string). -/
structure Env where
  prefix_path : Option String
  pathExists : String → Bool
  fetch : String → FetchResult
  render : MapSettings → String

/-- Whether a path string starts with a slash (posixpath absoluteness). -/
def startsWithSlash (s : String) : Bool :=
  match s.toList with
  | '/' :: _ => true
  | _ => false

/-- Whether a path string ends with a slash. -/
def endsWithSlash (s : String) : Bool :=
  match s.toList.getLast? with
  | some '/' => true
  | _ => false

/-- Embedding of `os.path.join(a, b)` (posixpath, two arguments): an
absolute second component discards the first. -/
def pathJoin (a b : String) : String :=
  if startsWithSlash b then b
  else if a = "" ∨ endsWithSlash a then a ++ b
  else a ++ "/" ++ b

instance {ε α : Type} [DecidableEq ε] [DecidableEq α] : DecidableEq (Except ε α) := fun x y =>
  match x, y with
  | .ok a, .ok b =>
    match decEq a b with
    | .isTrue h => .isTrue (h ▸ rfl)
    | .isFalse h => .isFalse (fun hh => h (Except.ok.inj hh))
  | .error a, .error b =>
    match decEq a b with
    | .isTrue h => .isTrue (h ▸ rfl)
    | .isFalse h => .isFalse (fun hh => h (Except.error.inj hh))
  | .ok _, .error _ => .isFalse (fun hh => Except.noConfusion hh)
  | .error _, .ok _ => .isFalse (fun hh => Except.noConfusion hh)

/-- Result of one `_resolve_url` call: the returned path or the raised
exception, together with the urls passed to urlretrieve during the call
(empty on a local-prefix hit, a single url otherwise). -/
structure ResolveOut where
  result : Except HErr String
  fetched : List String
deriving DecidableEq

/-- Message of the ParameterError `_resolve_url` raises when urlretrieve
raises ValueError. -/
def resolveFailMsg (url : String) : String :=
  "The file `" ++ url ++ "` could not be found locally and not be retrieved as download."

/-- The fallback branch of `_resolve_url`: call urlretrieve once; only a
ValueError is converted to ParameterError, any other exception
propagates unchanged. -/
def fetchBranch (env : Env) (url : String) : ResolveOut :=
  match env.fetch url with
  | .ok p => { result := .ok p, fetched := [url] }
  | .valueError _ => { result := .error (.parameterError (resolveFailMsg url)), fetched := [url] }
  | .failed n m => { result := .error (.pyError n m), fetched := [url] }

/-- Embedding of `RenderGeojsonFilter._resolve_url`: if a (truthy)
prefix path is configured and `os.path.join(prefix, url)` exists
locally, return that path with no fetch; otherwise fall back to a single
urlretrieve attempt. -/
def _resolve_url (env : Env) (url : String) : ResolveOut :=
  match env.prefix_path with
  | some p =>
    let local_path := pathJoin p url
    if env.pathExists local_path then { result := .ok local_path, fetched := [] }
    else fetchBranch env url
  | none => fetchBranch env url

/-- The validated request parameters, as bound by handle_requests just
before resource resolution. -/
structure RenderRequest where
  geojson : String
  style : String
  width : Int
  height : Int
  dpi : Int
  bbox : Rat × Rat × Rat × Rat
deriving DecidableEq

/-- A parameter map, Python `request.parameterMap()`. -/
def Params : Type := String → Option String

/-- Parameter map built from an association list (first binding wins). -/
def paramsOf (l : List (String × String)) : Params :=
  fun k => l.lookup k

/-- Message of the BBOX ParameterError. -/
def bboxFailMsg : String :=
  "Parameter BBOX must be specified in the form `min_x,min_y,max_x,max_y`."

/-- Message of the uncaught ValueError Python `int(s)` raises on a
non-integer string (the code's `except (KeyError, TypeError)` does not
catch ValueError, so it propagates). -/
def intValueErrorMsg (s : String) : String :=
  "invalid literal for int() with base 10: " ++ s

/-- The BBOX step of handle_requests: `params.get('BBOX')` is None ⇒
AttributeError (caught); splitting on commas must yield exactly four
components (else the unpacking ValueError is caught); each component must
parse as a Python float (else the float() ValueError is caught); all
three failures raise the same ParameterError. -/
def parseBBox (v : Option String) : Except HErr (Rat × Rat × Rat × Rat) :=
  match v with
  | none => .error (.parameterError bboxFailMsg)
  | some b =>
    match splitCommaStr b with
    | [sx, sy, tx, ty] =>
      match pyFloat sx, pyFloat sy, pyFloat tx, pyFloat ty with
      | some minx, some miny, some maxx, some maxy => .ok (minx, miny, maxx, maxy)
      | _, _, _, _ => .error (.parameterError bboxFailMsg)
    | _ => .error (.parameterError bboxFailMsg)

/-- The parameter-validation prefix of `handle_requests` (source lines
77–107), checking GEOJSON, STYLE, WIDTH, HEIGHT, DPI, BBOX in program
order.  For WIDTH/HEIGHT/DPI, a missing key raises KeyError (caught:
ParameterError for WIDTH/HEIGHT, default 96 for DPI) while a present but
non-integer value makes `int()` raise ValueError, which the code does
not catch, so it escapes as a generic exception. -/
def validateParams (params : Params) : Except HErr RenderRequest :=
  match params "GEOJSON" with
  | none => .error (.parameterError "Parameter GEOJSON must be set.")
  | some geojson =>
  match params "STYLE" with
  | none => .error (.parameterError "Parameter STYLE must be set.")
  | some style =>
  match params "WIDTH" with
  | none => .error (.parameterError "Parameter WIDTH must be integer.")
  | some w =>
  match pyInt w with
  | none => .error (.pyError "ValueError" (intValueErrorMsg w))
  | some width =>
  match params "HEIGHT" with
  | none => .error (.parameterError "Parameter HEIGHT must be integer.")
  | some h =>
  match pyInt h with
  | none => .error (.pyError "ValueError" (intValueErrorMsg h))
  | some height =>
  match (params "DPI").map pyInt with
  | some none => .error (.pyError "ValueError" (intValueErrorMsg ((params "DPI").getD "")))
  | some (some dpi) =>
    (parseBBox (params "BBOX")).map
      (fun bbox => { geojson, style, width, height, dpi, bbox })
  | none =>
    (parseBBox (params "BBOX")).map
      (fun bbox => { geojson, style, width, height, dpi := 96, bbox })

/-- Everything observable about one `handle_requests` run: the arguments
of the `_resolve_url` calls in order, the urls passed to urlretrieve, the
settings of each render-engine invocation, and the outcome (the raised
exception, or the map settings together with the response effects the
success path performs: Content-type header and PNG body). -/
structure HandleOut where
  resolveCalls : List String := []
  fetchCalls : List String := []
  renderCalls : List MapSettings := []
  result : Except HErr (MapSettings × String)

/-- Layer construction and rendering tail of `handle_requests` (source
lines 119–150), after the dataset path and the three style paths are
resolved. -/
def renderTail (env : Env) (req : RenderRequest) (geojson_file_name : String)
    (polygon_style line_style point_style : String)
    (resolveCalls fetchCalls : List String) : HandleOut :=
  let polygon_layer : VectorLayer :=
    { source := geojson_file_name ++ "|geometrytype=Polygon", name := "polygons",
      provider := "ogr", style := polygon_style }
  let line_layer : VectorLayer :=
    { source := geojson_file_name ++ "|geometrytype=Line", name := "lines",
      provider := "ogr", style := line_style }
  let point_layer : VectorLayer :=
    { source := geojson_file_name ++ "|geometrytype=Point", name := "points",
      provider := "ogr", style := point_style }
  let settings : MapSettings :=
    { outputWidth := req.width, outputHeight := req.height, outputDpi := req.dpi,
      extent := req.bbox, layers := [polygon_layer, line_layer, point_layer],
      backgroundTransparent := true }
  let image_data := env.render settings
  { resolveCalls := resolveCalls, fetchCalls := fetchCalls, renderCalls := [settings],
    result := .ok (settings, image_data) }

/-- Embedding of `RenderGeojsonFilter.handle_requests`: validate the
parameters, resolve the dataset, expand and resolve the style
reference(s), build the three layers, render, and emit the PNG response;
any exception escapes to the caller. -/
def handle_requests (env : Env) (params : Params) : HandleOut :=
  match validateParams params with
  | .error e => { result := .error e }
  | .ok req =>
    let r1 := _resolve_url env req.geojson
    let calls1 := [req.geojson]
    match r1.result with
    | .error e => { resolveCalls := calls1, fetchCalls := r1.fetched, result := .error e }
    | .ok geojson_file_name =>
      if hasTypeTok req.style then
        let u1 := replaceTypeTok req.style "polygons"
        let r2 := _resolve_url env u1
        match r2.result with
        | .error e =>
          { resolveCalls := calls1 ++ [u1], fetchCalls := r1.fetched ++ r2.fetched,
            result := .error e }
        | .ok polygon_style =>
          let u2 := replaceTypeTok req.style "lines"
          let r3 := _resolve_url env u2
          match r3.result with
          | .error e =>
            { resolveCalls := calls1 ++ [u1, u2],
              fetchCalls := r1.fetched ++ r2.fetched ++ r3.fetched, result := .error e }
          | .ok line_style =>
            let u3 := replaceTypeTok req.style "points"
            let r4 := _resolve_url env u3
            match r4.result with
            | .error e =>
              { resolveCalls := calls1 ++ [u1, u2, u3],
                fetchCalls := r1.fetched ++ r2.fetched ++ r3.fetched ++ r4.fetched,
                result := .error e }
            | .ok point_style =>
              renderTail env req geojson_file_name polygon_style line_style point_style
                (calls1 ++ [u1, u2, u3])
                (r1.fetched ++ r2.fetched ++ r3.fetched ++ r4.fetched)
      else
        let r2 := _resolve_url env req.style
        match r2.result with
        | .error e =>
          { resolveCalls := calls1 ++ [req.style], fetchCalls := r1.fetched ++ r2.fetched,
            result := .error e }
        | .ok shared_style =>
          renderTail env req geojson_file_name shared_style shared_style shared_style
            (calls1 ++ [req.style]) (r1.fetched ++ r2.fetched)

/-- The mutable request handler object seen by `responseComplete`:
parameter map, response headers and the appended body chunks. -/
structure Request where
  params : Params
  headers : List (String × String)
  body : List String

/-- Embedding of `request.setResponseHeader(k, v)`: replace any previous
value of the header. -/
def setResponseHeader (hs : List (String × String)) (k v : String) : List (String × String) :=
  hs.filter (fun kv => kv.1 ≠ k) ++ [(k, v)]

/-- ASCII upper-casing of a string, embedding Python `s.upper()` (the
parameter values of interest are ASCII; Unicode case mapping is not
modelled). -/
def upperStr (s : String) : String :=
  String.mk (s.toList.map Char.toUpper)

/-- Whether the filter claims the request: Python
`params.get('SERVICE', '').upper() == 'RENDERGEOJSON'`. -/
def claimsRequest (params : Params) : Bool :=
  upperStr ((params "SERVICE").getD "") == "RENDERGEOJSON"

/-- The string `traceback.format_exc()` produces for a modelled
exception (the exact traceback text is abstracted to the exception type
and message, which is all the claims observe). -/
def format_exc (e : HErr) : String :=
  "Traceback (most recent call last):\n" ++ HErr.excTypeName e ++ ": " ++ HErr.text e ++ "\n"

/-- Dispatcher output: the request object after the call, plus the
messages sent to QgsMessageLog in order. -/
structure DispatchOut where
  request : Request
  log : List String

/-- Embedding of `RenderGeojsonFilter.responseComplete`: pass through
unless SERVICE upper-cases to RENDERGEOJSON; otherwise clear the
response, run handle_requests, and on an exception log the exception's
type name, set Content-type text/plain, then either append just the
message (ParameterError) or log the traceback and append the marker and
the traceback (any other exception). -/
def responseComplete (env : Env) (request : Request) : DispatchOut :=
  if claimsRequest request.params then
    let cleared : Request := { request with headers := [], body := [] }
    let out := handle_requests env request.params
    match out.result with
    | .ok s =>
      { request :=
          { cleared with
            headers := setResponseHeader cleared.headers "Content-type" "image/png",
            body := [s.2] },
        log := [] }
    | .error e =>
      let log1 := ["RenderGeojson.responseComplete :: " ++ HErr.excTypeName e]
      let withHeader :=
        { cleared with headers := setResponseHeader cleared.headers "Content-type" "text/plain" }
      match e with
      | .parameterError m => { request := { withHeader with body := [m] }, log := log1 }
      | .pyError _ _ =>
        let err_trace := format_exc e
        { request := { withHeader with body := ["Unhandled error", err_trace] },
          log := log1 ++ ["RenderGeojson.responseComplete ::  " ++ err_trace] }
  else
    { request := request, log := [] }

/-! ### Concrete fixtures used by witnesses and counterexamples -/

/-- A fully valid parameter map (DPI left to its default). -/
def pValid : Params := paramsOf
  [("SERVICE", "rendergeojson"), ("GEOJSON", "a.geojson"), ("STYLE", "s.qml"),
   ("WIDTH", "100"), ("HEIGHT", "100"), ("BBOX", "1,2,3,4")]

/-- A valid parameter map whose style reference contains `$type`. -/
def pTyped : Params := paramsOf
  [("SERVICE", "RENDERGEOJSON"), ("GEOJSON", "a.geojson"), ("STYLE", "style_$type.qml"),
   ("WIDTH", "100"), ("HEIGHT", "100"), ("DPI", "10"), ("BBOX", "1,2,3,4")]

/-- Environment in which every local lookup misses and every fetch raises
ValueError (a reference urlretrieve rejects as not a url). -/
def envValueErr : Env :=
  { prefix_path := none, pathExists := fun _ => false,
    fetch := fun _ => .valueError "unknown url type", render := fun _ => "PNGBYTES" }

/-- Environment in which every local lookup misses and every fetch raises
a URLError (an unreachable remote), the exception urlretrieve raises on
network failure and the code does not catch. -/
def envNetErr : Env :=
  { prefix_path := none, pathExists := fun _ => false,
    fetch := fun _ => .failed "URLError" "unreachable host", render := fun _ => "PNGBYTES" }

/-- Environment with a configured prefix directory under which every path
exists, so every resolution is a local hit. -/
def envLocal : Env :=
  { prefix_path := some "/data", pathExists := fun _ => true,
    fetch := fun _ => .failed "URLError" "no network in this environment",
    render := fun _ => "PNGBYTES" }

/-- A parameter map whose WIDTH value does not parse as an integer. -/
def pWidthAbc : Params := paramsOf
  [("SERVICE", "rendergeojson"), ("GEOJSON", "a.geojson"), ("STYLE", "s.qml"),
   ("WIDTH", "abc"), ("HEIGHT", "100"), ("BBOX", "1,2,3,4")]

/-- The validated request of the `pValid` fixture. -/
def reqValid : RenderRequest :=
  { geojson := "a.geojson", style := "s.qml", width := 100, height := 100,
    dpi := 96, bbox := (1, 2, 3, 4) }

/-- The validated request of the `pTyped` fixture. -/
def reqTyped : RenderRequest :=
  { geojson := "a.geojson", style := "style_$type.qml", width := 100, height := 100,
    dpi := 10, bbox := (1, 2, 3, 4) }

/-! ### Per-parameter checks in isolation

Each function gives the error (if any) that the corresponding validation
step of handle_requests raises, looking only at its own parameter.  They
are used to state that validation processes the parameters in program
order and reports the first failure. -/

/-- The GEOJSON step (source lines 77–80). -/
def geojsonError (params : Params) : Option HErr :=
  match params "GEOJSON" with
  | none => some (.parameterError "Parameter GEOJSON must be set.")
  | some _ => none

/-- The STYLE step (source lines 82–85). -/
def styleError (params : Params) : Option HErr :=
  match params "STYLE" with
  | none => some (.parameterError "Parameter STYLE must be set.")
  | some _ => none

/-- The WIDTH step (source lines 87–90): missing ⇒ caught KeyError ⇒
ParameterError; non-integer ⇒ uncaught ValueError. -/
def widthError (params : Params) : Option HErr :=
  match params "WIDTH" with
  | none => some (.parameterError "Parameter WIDTH must be integer.")
  | some w =>
    match pyInt w with
    | none => some (.pyError "ValueError" (intValueErrorMsg w))
    | some _ => none

/-- The HEIGHT step (source lines 91–94). -/
def heightError (params : Params) : Option HErr :=
  match params "HEIGHT" with
  | none => some (.parameterError "Parameter HEIGHT must be integer.")
  | some h =>
    match pyInt h with
    | none => some (.pyError "ValueError" (intValueErrorMsg h))
    | some _ => none

/-- The DPI step (source lines 96–101): missing is not an error (default
96); non-integer ⇒ uncaught ValueError. -/
def dpiError (params : Params) : Option HErr :=
  match params "DPI" with
  | none => none
  | some d =>
    match pyInt d with
    | none => some (.pyError "ValueError" (intValueErrorMsg d))
    | some _ => none

/-- The BBOX step (source lines 103–107). -/
def bboxError (params : Params) : Option HErr :=
  match parseBBox (params "BBOX") with
  | .error e => some e
  | .ok _ => none

/-- The errors of the failing validation steps, listed in the order the
spec prescribes: GEOJSON, STYLE, WIDTH, HEIGHT, DPI, BBOX. -/
def orderedParamErrors (params : Params) : List HErr :=
  [geojsonError params, styleError params, widthError params,
   heightError params, dpiError params, bboxError params].filterMap id

/-! ### Evaluation lemmas shared by several proofs -/

theorem pyFloat_one : pyFloat "1" = some 1 := by
  have h : pyFloatParse "1" = some ⟨false, 1, 0, 0⟩ := by decide
  rw [pyFloat, h]; norm_num [Option.map, DecimalRep.toRat]

theorem pyFloat_two : pyFloat "2" = some 2 := by
  have h : pyFloatParse "2" = some ⟨false, 2, 0, 0⟩ := by decide
  rw [pyFloat, h]; norm_num [Option.map, DecimalRep.toRat]

theorem pyFloat_three : pyFloat "3" = some 3 := by
  have h : pyFloatParse "3" = some ⟨false, 3, 0, 0⟩ := by decide
  rw [pyFloat, h]; norm_num [Option.map, DecimalRep.toRat]

theorem pyFloat_four : pyFloat "4" = some 4 := by
  have h : pyFloatParse "4" = some ⟨false, 4, 0, 0⟩ := by decide
  rw [pyFloat, h]; norm_num [Option.map, DecimalRep.toRat]

theorem parseBBox_1234 : parseBBox (some "1,2,3,4") = .ok (1, 2, 3, 4) := by
  have hs : splitCommaStr "1,2,3,4" = ["1", "2", "3", "4"] := by decide
  simp [parseBBox, hs, pyFloat_one, pyFloat_two, pyFloat_three, pyFloat_four]

theorem validateParams_pValid : validateParams pValid = .ok reqValid := by
  have hg : pValid "GEOJSON" = some "a.geojson" := by decide
  have hst : pValid "STYLE" = some "s.qml" := by decide
  have hw : pValid "WIDTH" = some "100" := by decide
  have hh : pValid "HEIGHT" = some "100" := by decide
  have hd : pValid "DPI" = none := by decide
  have hb : pValid "BBOX" = some "1,2,3,4" := by decide
  have hiw : pyInt "100" = some 100 := by decide
  simp [validateParams, hg, hst, hw, hh, hd, hb, hiw, parseBBox_1234, Except.map, reqValid]

theorem validateParams_pTyped : validateParams pTyped = .ok reqTyped := by
  have hg : pTyped "GEOJSON" = some "a.geojson" := by decide
  have hst : pTyped "STYLE" = some "style_$type.qml" := by decide
  have hw : pTyped "WIDTH" = some "100" := by decide
  have hh : pTyped "HEIGHT" = some "100" := by decide
  have hd : pTyped "DPI" = some "10" := by decide
  have hb : pTyped "BBOX" = some "1,2,3,4" := by decide
  have hiw : pyInt "100" = some 100 := by decide
  have hid : pyInt "10" = some 10 := by decide
  simp [validateParams, hg, hst, hw, hh, hd, hb, hiw, hid, parseBBox_1234, Except.map, reqTyped]

/-! ### Structural lemmas about the pipeline -/

/-- A validation failure short-circuits handle_requests: no resolution,
no fetch, no render. -/
theorem handle_requests_of_validation_error (env : Env) (params : Params) (e : HErr)
    (h : validateParams params = .error e) :
    handle_requests env params = { result := .error e } := by
  simp [handle_requests, h]

/-- A failing dataset resolution short-circuits handle_requests after the
single resolver call for GEOJSON. -/
theorem handle_requests_of_geojson_error (env : Env) (params : Params) (req : RenderRequest)
    (e : HErr) (hv : validateParams params = .ok req)
    (hr : (_resolve_url env req.geojson).result = .error e) :
    handle_requests env params =
      { resolveCalls := [req.geojson], fetchCalls := (_resolve_url env req.geojson).fetched,
        result := .error e } := by
  simp [handle_requests, hv, hr]

/-- How the dispatcher surfaces an exception escaping handle_requests:
the type name is always logged; a ParameterError's message becomes the
whole plain-text body; any other exception yields the marker line plus
the traceback in the body and a second log message with the traceback. -/
theorem dispatcher_error_form (env : Env) (params : Params) (hs : List (String × String))
    (bs : List String) (e : HErr) (hc : claimsRequest params = true)
    (he : (handle_requests env params).result = .error e) :
    responseComplete env { params := params, headers := hs, body := bs } =
      { request :=
          { params := params, headers := [("Content-type", "text/plain")],
            body :=
              match e with
              | .parameterError m => [m]
              | .pyError _ _ => ["Unhandled error", format_exc e] },
        log :=
          match e with
          | .parameterError _ => ["RenderGeojson.responseComplete :: ParameterError"]
          | .pyError n _ =>
            ["RenderGeojson.responseComplete :: " ++ n,
             "RenderGeojson.responseComplete ::  " ++ format_exc e] } := by
  cases e with
  | parameterError m => simp [responseComplete, hc, he, setResponseHeader, HErr.excTypeName]
  | pyError n m => simp [responseComplete, hc, he, setResponseHeader, HErr.excTypeName]

/-- How the dispatcher surfaces a successful render: Content-type
image/png, the PNG bytes as the single body chunk, nothing logged. -/
theorem dispatcher_ok_form (env : Env) (params : Params) (hs : List (String × String))
    (bs : List String) (s : MapSettings) (png : String) (hc : claimsRequest params = true)
    (he : (handle_requests env params).result = .ok (s, png)) :
    responseComplete env { params := params, headers := hs, body := bs } =
      { request :=
          { params := params, headers := [("Content-type", "image/png")], body := [png] },
        log := [] } := by
  simp [responseComplete, hc, he, setResponseHeader]

/-- A failing shared-style resolution (no `$type` in the style reference)
makes handle_requests raise that resolution's exception. -/
theorem handle_requests_of_style_error (env : Env) (params : Params) (req : RenderRequest)
    (e : HErr) (gpath : String) (hv : validateParams params = .ok req)
    (hg : (_resolve_url env req.geojson).result = .ok gpath)
    (hnt : hasTypeTok req.style = false)
    (hr : (_resolve_url env req.style).result = .error e) :
    (handle_requests env params).result = .error e := by
  simp [handle_requests, hv, hg, hnt, hr]

/-- Every error parseBBox produces is the one BBOX ParameterError. -/
theorem parseBBox_error_eq (v : Option String) (e : HErr) (h : parseBBox v = .error e) :
    e = .parameterError bboxFailMsg := by
  cases v with
  | none =>
    simp [parseBBox] at h
    exact h.symm
  | some b =>
    rcases hsp : splitCommaStr b with _ | ⟨x, _ | ⟨y, _ | ⟨z, _ | ⟨t, _ | ⟨u, rest⟩⟩⟩⟩⟩ <;>
      simp [parseBBox, hsp] at h <;> try exact h.symm
    · cases hx : pyFloat x <;> cases hy : pyFloat y <;> cases hz : pyFloat z <;>
        cases ht : pyFloat t <;> simp [hx, hy, hz, ht] at h <;> try exact h.symm

/-- parseBBox succeeds exactly on a present value that splits into four
comma-separated components, each parsing as a Python float. -/
theorem parseBBox_ok_iff (v : Option String) :
    (∃ q, parseBBox v = .ok q) ↔
      ∃ b x y z t, v = some b ∧ splitCommaStr b = [x, y, z, t] ∧
        (pyFloat x).isSome ∧ (pyFloat y).isSome ∧ (pyFloat z).isSome ∧ (pyFloat t).isSome := by
  cases v with
  | none => simp [parseBBox]
  | some b =>
    constructor
    · rintro ⟨q, hq⟩
      rcases hsp : splitCommaStr b with _ | ⟨x, _ | ⟨y, _ | ⟨z, _ | ⟨t, _ | ⟨u, rest⟩⟩⟩⟩⟩ <;>
        simp [parseBBox, hsp] at hq
      cases hx : pyFloat x <;> cases hy : pyFloat y <;> cases hz : pyFloat z <;>
        cases ht : pyFloat t <;> simp [hx, hy, hz, ht] at hq
      exact ⟨b, x, y, z, t, rfl, hsp, by simp [hx], by simp [hy], by simp [hz], by simp [ht]⟩
    · rintro ⟨b', x, y, z, t, hb, hsp, hx, hy, hz, ht⟩
      injection hb with hbe
      subst hbe
      rcases Option.isSome_iff_exists.mp hx with ⟨rx, hrx⟩
      rcases Option.isSome_iff_exists.mp hy with ⟨ry, hry⟩
      rcases Option.isSome_iff_exists.mp hz with ⟨rz, hrz⟩
      rcases Option.isSome_iff_exists.mp ht with ⟨rt, hrt⟩
      exact ⟨(rx, ry, rz, rt), by simp [parseBBox, hsp, hrx, hry, hrz, hrt]⟩

/-- A check function is `none` exactly when its parameter is present. -/
theorem geojsonError_none_iff (params : Params) :
    geojsonError params = none ↔ ∃ g, params "GEOJSON" = some g := by
  unfold geojsonError
  cases h : params "GEOJSON" <;> simp

/-- The STYLE check is `none` exactly when STYLE is present. -/
theorem styleError_none_iff (params : Params) :
    styleError params = none ↔ ∃ s, params "STYLE" = some s := by
  unfold styleError
  cases h : params "STYLE" <;> simp

/-- The WIDTH check is `none` exactly when WIDTH is present and parses. -/
theorem widthError_none_iff (params : Params) :
    widthError params = none ↔ ∃ w wv, params "WIDTH" = some w ∧ pyInt w = some wv := by
  unfold widthError
  cases h : params "WIDTH" with
  | none => simp
  | some w => cases hw : pyInt w <;> simp [hw]

/-- The HEIGHT check is `none` exactly when HEIGHT is present and parses. -/
theorem heightError_none_iff (params : Params) :
    heightError params = none ↔ ∃ w wv, params "HEIGHT" = some w ∧ pyInt w = some wv := by
  unfold heightError
  cases h : params "HEIGHT" with
  | none => simp
  | some w => cases hw : pyInt w <;> simp [hw]

/-- The DPI check is `none` exactly when DPI is absent or parses. -/
theorem dpiError_none_iff (params : Params) :
    dpiError params = none ↔
      params "DPI" = none ∨ ∃ d dv, params "DPI" = some d ∧ pyInt d = some dv := by
  unfold dpiError
  cases h : params "DPI" with
  | none => simp
  | some d => cases hd : pyInt d <;> simp [hd]

/-! ### The claims -/

/-- C1: an absent WIDTH (or HEIGHT) does produce the ParameterError
"Parameter WIDTH must be integer." as claimed, but a present non-integer
value such as WIDTH="abc" does not: Python int("abc") raises ValueError,
which `except (KeyError, TypeError)` does not catch, so the request ends
in the unhandled-error response (marker plus traceback) instead of the
claimed validation error.  The rendering engine is still never invoked. -/
theorem C1_width_height_int_check :
    validateParams (paramsOf [("GEOJSON", "a.geojson"), ("STYLE", "s.qml"),
        ("HEIGHT", "100"), ("BBOX", "1,2,3,4")])
      = .error (.parameterError "Parameter WIDTH must be integer.")
    ∧ validateParams (paramsOf [("GEOJSON", "a.geojson"), ("STYLE", "s.qml"),
        ("WIDTH", "100"), ("BBOX", "1,2,3,4")])
      = .error (.parameterError "Parameter HEIGHT must be integer.")
    ∧ validateParams pWidthAbc = .error (.pyError "ValueError" (intValueErrorMsg "abc"))
    ∧ validateParams (paramsOf [("GEOJSON", "a.geojson"), ("STYLE", "s.qml"),
        ("WIDTH", "100"), ("HEIGHT", "abc"), ("BBOX", "1,2,3,4")])
      = .error (.pyError "ValueError" (intValueErrorMsg "abc"))
    ∧ (∀ m, HErr.pyError "ValueError" (intValueErrorMsg "abc") ≠ .parameterError m)
    ∧ (responseComplete envValueErr { params := pWidthAbc, headers := [], body := [] }).request.body
        = ["Unhandled error", format_exc (.pyError "ValueError" (intValueErrorMsg "abc"))]
    ∧ (responseComplete envValueErr { params := pWidthAbc, headers := [], body := [] }).request.headers
        = [("Content-type", "text/plain")]
    ∧ (handle_requests envValueErr pWidthAbc).renderCalls = [] :=
  ⟨by decide, by decide, by decide, by decide, fun m h => HErr.noConfusion h,
   by decide, by decide, by decide⟩

/-- C2: an absent DPI defaults to 96 and DPI="10" yields 10, as claimed;
but DPI="x" does not produce "Parameter DPI must be integer.": int("x")
raises ValueError, the code only catches TypeError and KeyError, so the
ValueError escapes as an unhandled error. -/
theorem C2_dpi_handling :
    (validateParams pValid = .ok reqValid ∧ reqValid.dpi = 96)
    ∧ (validateParams pTyped = .ok reqTyped ∧ reqTyped.dpi = 10)
    ∧ validateParams (paramsOf [("GEOJSON", "a.geojson"), ("STYLE", "s.qml"), ("WIDTH", "100"),
        ("HEIGHT", "100"), ("DPI", "x"), ("BBOX", "1,2,3,4")])
      = .error (.pyError "ValueError" (intValueErrorMsg "x"))
    ∧ (∀ m, HErr.pyError "ValueError" (intValueErrorMsg "x") ≠ .parameterError m) :=
  ⟨⟨validateParams_pValid, rfl⟩, ⟨validateParams_pTyped, rfl⟩, by decide,
   fun m h => HErr.noConfusion h⟩

/-- C3: validation checks GEOJSON, STYLE, WIDTH, HEIGHT, DPI, BBOX in
exactly that order: handle_requests raises an error exactly when some
check fails, and the error raised is that of the first failing check in
that order (no aggregation); and a validation failure short-circuits
handle_requests before any resolver call, fetch, or render invocation
(no side effects). -/
theorem C3_validation_order (env : Env) (params : Params) (e : HErr) :
    (validateParams params = .error e ↔ (orderedParamErrors params).head? = some e)
    ∧ (validateParams params = .error e →
        handle_requests env params = { result := .error e }) := by
  refine ⟨?_, fun h => by simp [handle_requests, h]⟩
  unfold validateParams orderedParamErrors geojsonError styleError widthError heightError dpiError bboxError
  cases hG : params "GEOJSON" with
  | none => simp
  | some g =>
  cases hS : params "STYLE" with
  | none => simp [hG]
  | some s =>
  cases hW : params "WIDTH" with
  | none => simp [hG, hS]
  | some w =>
  cases hwi : pyInt w with
  | none => simp_all [Option.map, Except.map]
  | some wv =>
  cases hH : params "HEIGHT" with
  | none => simp_all [Option.map, Except.map]
  | some hh =>
  cases hhi : pyInt hh with
  | none => simp_all [Option.map, Except.map]
  | some hv =>
  cases hD : params "DPI" with
  | none =>
    cases hB : parseBBox (params "BBOX") with
    | error eb => simp_all [Option.map, Except.map]
    | ok q => simp_all [Option.map, Except.map]
  | some d =>
  cases hdi : pyInt d with
  | none => simp_all [Option.map, Except.map]
  | some dv =>
    cases hB : parseBBox (params "BBOX") with
    | error eb => simp_all [Option.map, Except.map]
    | ok q => simp_all [Option.map, Except.map]

/-- C3 witness: a parameter map missing everything fails with the GEOJSON
error (the first check in the order) and handle_requests performs no
resolver call, fetch, or render invocation. -/
theorem C3_validation_order_witness :
    handle_requests envValueErr (paramsOf []) =
      { result := .error (.parameterError "Parameter GEOJSON must be set.") } :=
  (C3_validation_order envValueErr (paramsOf []) _).2 (by decide)

/-- C4: once the earlier checks pass, validation fails with exactly the
BBOX message iff BBOX is absent, does not split into exactly four
comma-separated components, or has a component that does not parse as a
float; and BBOX="1,2,3,4" validates with bbox (1, 2, 3, 4). -/
theorem C4_bbox_validation (params : Params)
    (hG : geojsonError params = none) (hS : styleError params = none)
    (hW : widthError params = none) (hH : heightError params = none)
    (hD : dpiError params = none) :
    ((validateParams params = .error (.parameterError bboxFailMsg)) ↔
      ¬ ∃ b x y z t, params "BBOX" = some b ∧ splitCommaStr b = [x, y, z, t] ∧
        (pyFloat x).isSome ∧ (pyFloat y).isSome ∧ (pyFloat z).isSome ∧ (pyFloat t).isSome)
    ∧ (params "BBOX" = some "1,2,3,4" →
        ∃ r, validateParams params = .ok r ∧ r.bbox = (1, 2, 3, 4)) := by
  obtain ⟨g, hg⟩ := (geojsonError_none_iff params).mp hG
  obtain ⟨s, hs⟩ := (styleError_none_iff params).mp hS
  obtain ⟨w, wv, hw, hwi⟩ := (widthError_none_iff params).mp hW
  obtain ⟨hstr, hv2, hhh, hhi⟩ := (heightError_none_iff params).mp hH
  have hvp : ∃ dpiv, validateParams params =
      Except.map (fun bbox =>
        { geojson := g, style := s, width := wv, height := hv2, dpi := dpiv, bbox := bbox })
        (parseBBox (params "BBOX")) := by
    rcases (dpiError_none_iff params).mp hD with hDn | ⟨d, dv, hd, hdi⟩
    · exact ⟨96, by simp [validateParams, hg, hs, hw, hwi, hhh, hhi, hDn, Option.map]⟩
    · exact ⟨dv, by simp [validateParams, hg, hs, hw, hwi, hhh, hhi, hd, hdi, Option.map]⟩
  obtain ⟨dpiv, hvp⟩ := hvp
  constructor
  · rw [hvp]
    cases hB : parseBBox (params "BBOX") with
    | ok q =>
      simp only [hB, Except.map]
      constructor
      · intro h
        exact absurd h (by simp)
      · intro h
        exact absurd ((parseBBox_ok_iff (params "BBOX")).mp ⟨q, hB⟩) h
    | error eb =>
      have heb := parseBBox_error_eq _ _ hB
      subst heb
      simp only [hB, Except.map]
      constructor
      · intro _ hex
        obtain ⟨q, hq⟩ := (parseBBox_ok_iff (params "BBOX")).mpr hex
        rw [hq] at hB
        exact Except.noConfusion hB
      · intro _
        trivial
  · intro hbb
    rw [hvp, hbb, parseBBox_1234]
    exact ⟨_, rfl, rfl⟩

/-- C4 witness: the valid fixture map has BBOX="1,2,3,4" and validates
with bbox (1, 2, 3, 4). -/
theorem C4_bbox_validation_witness :
    ∃ r, validateParams pValid = .ok r ∧ r.bbox = (1, 2, 3, 4) :=
  (C4_bbox_validation pValid (by decide) (by decide) (by decide) (by decide) (by decide)).2
    (by decide)

/-- C5 counterexample: when the single fetch attempt fails with an
exception other than ValueError (here a URLError for an unreachable
host), resolution does fail, but not with the claimed ParameterError
message: the URLError propagates unchanged, so the claim's "an error
whose message is exactly ..." is false at this input. -/
theorem C5_fetch_failure_counterexample :
    (_resolve_url envNetErr "http://h/x.json").result
      = .error (.pyError "URLError" "unreachable host")
    ∧ HErr.pyError "URLError" "unreachable host"
        ≠ .parameterError (resolveFailMsg "http://h/x.json") :=
  ⟨by decide, fun h => HErr.noConfusion h⟩

/-- C5 amended: with a configured prefix whose joined path exists, the
join is returned with no fetch; otherwise exactly one fetch attempt is
made, and a failing fetch yields the claimed ParameterError message only
when urlretrieve raises ValueError — any other fetch exception
propagates unchanged. -/
theorem C5_resolution_policy (env : Env) (p url : String) :
    (env.prefix_path = some p → env.pathExists (pathJoin p url) = true →
      _resolve_url env url = { result := .ok (pathJoin p url), fetched := [] })
    ∧ (env.prefix_path = none ∨ (env.prefix_path = some p ∧ env.pathExists (pathJoin p url) = false) →
        (_resolve_url env url).fetched = [url]
        ∧ (∀ q, env.fetch url = .ok q → (_resolve_url env url).result = .ok q)
        ∧ (∀ m, env.fetch url = .valueError m →
            (_resolve_url env url).result = .error (.parameterError (resolveFailMsg url)))
        ∧ (∀ n m, env.fetch url = .failed n m →
            (_resolve_url env url).result = .error (.pyError n m))) := by
  constructor
  · intro hp hex
    simp [_resolve_url, hp, hex]
  · rintro (hp | ⟨hp, hex⟩)
    · refine ⟨?_, fun q hq => ?_, fun m hm => ?_, fun n m hnm => ?_⟩ <;>
        cases hf : env.fetch url <;>
          simp_all [_resolve_url, fetchBranch, hp]
    · refine ⟨?_, fun q hq => ?_, fun m hm => ?_, fun n m hnm => ?_⟩ <;>
        cases hf : env.fetch url <;>
          simp_all [_resolve_url, fetchBranch, hp, hex]

/-- C5 witness: a local-prefix hit returns the joined path without any
fetch, and a ValueError fetch failure yields the ParameterError with the
documented message. -/
theorem C5_resolution_policy_witness :
    _resolve_url envLocal "s.qml" = { result := .ok (pathJoin "/data" "s.qml"), fetched := [] }
    ∧ (_resolve_url envValueErr "s.qml").result
        = .error (.parameterError (resolveFailMsg "s.qml")) :=
  ⟨(C5_resolution_policy envLocal "/data" "s.qml").1 rfl (by decide),
   ((C5_resolution_policy envValueErr "/data" "s.qml").2 (Or.inl rfl)).2.2.1
     "unknown url type" rfl⟩

/-- C6: when the validated style reference contains `$type`, exactly
three style resolutions are made — for the reference with `$type`
replaced by polygons, lines and points — attached to the polygon, line
and point layers respectively; otherwise one resolution is made and its
result is shared by all three layers. -/
theorem C6_style_expansion (env : Env) (params : Params) (req : RenderRequest)
    (hv : validateParams params = .ok req) (g : String)
    (hg : (_resolve_url env req.geojson).result = .ok g) :
    (hasTypeTok req.style = true →
      ∀ a b c, (_resolve_url env (replaceTypeTok req.style "polygons")).result = .ok a →
        (_resolve_url env (replaceTypeTok req.style "lines")).result = .ok b →
        (_resolve_url env (replaceTypeTok req.style "points")).result = .ok c →
        (handle_requests env params).resolveCalls
          = [req.geojson, replaceTypeTok req.style "polygons",
             replaceTypeTok req.style "lines", replaceTypeTok req.style "points"]
        ∧ ∃ s png, (handle_requests env params).result = .ok (s, png)
            ∧ s.layers.map (fun l => (l.name, l.style))
              = [("polygons", a), ("lines", b), ("points", c)])
    ∧ (hasTypeTok req.style = false →
      ∀ a, (_resolve_url env req.style).result = .ok a →
        (handle_requests env params).resolveCalls = [req.geojson, req.style]
        ∧ ∃ s png, (handle_requests env params).result = .ok (s, png)
            ∧ s.layers.map (fun l => (l.name, l.style))
              = [("polygons", a), ("lines", a), ("points", a)]) := by
  constructor
  · intro ht a b c ha hb hc
    have hset : (handle_requests env params).result =
        .ok (⟨req.width, req.height, req.dpi, req.bbox,
              [⟨g ++ "|geometrytype=Polygon", "polygons", "ogr", a⟩,
               ⟨g ++ "|geometrytype=Line", "lines", "ogr", b⟩,
               ⟨g ++ "|geometrytype=Point", "points", "ogr", c⟩], true⟩,
             env.render ⟨req.width, req.height, req.dpi, req.bbox,
              [⟨g ++ "|geometrytype=Polygon", "polygons", "ogr", a⟩,
               ⟨g ++ "|geometrytype=Line", "lines", "ogr", b⟩,
               ⟨g ++ "|geometrytype=Point", "points", "ogr", c⟩], true⟩) := by
      simp [handle_requests, hv, hg, ht, ha, hb, hc, renderTail]
    exact ⟨by simp [handle_requests, hv, hg, ht, ha, hb, hc, renderTail],
           ⟨_, _, hset, by simp⟩⟩
  · intro ht a ha
    have hset : (handle_requests env params).result =
        .ok (⟨req.width, req.height, req.dpi, req.bbox,
              [⟨g ++ "|geometrytype=Polygon", "polygons", "ogr", a⟩,
               ⟨g ++ "|geometrytype=Line", "lines", "ogr", a⟩,
               ⟨g ++ "|geometrytype=Point", "points", "ogr", a⟩], true⟩,
             env.render ⟨req.width, req.height, req.dpi, req.bbox,
              [⟨g ++ "|geometrytype=Polygon", "polygons", "ogr", a⟩,
               ⟨g ++ "|geometrytype=Line", "lines", "ogr", a⟩,
               ⟨g ++ "|geometrytype=Point", "points", "ogr", a⟩], true⟩) := by
      simp [handle_requests, hv, hg, ht, ha, renderTail]
    exact ⟨by simp [handle_requests, hv, hg, ht, ha, renderTail],
           ⟨_, _, hset, by simp⟩⟩

/-- C6 witness: with STYLE="style_$type.qml" the resolver is called for
the dataset and then for the three substituted style references. -/
theorem C6_style_expansion_witness :
    (handle_requests envLocal pTyped).resolveCalls
      = ["a.geojson", "style_polygons.qml", "style_lines.qml", "style_points.qml"] := by
  have h := (C6_style_expansion envLocal pTyped reqTyped validateParams_pTyped
      (pathJoin "/data" "a.geojson") (by decide)).1 (by decide)
      (pathJoin "/data" "style_polygons.qml") (pathJoin "/data" "style_lines.qml")
      (pathJoin "/data" "style_points.qml") (by decide) (by decide) (by decide)
  rw [h.1]
  decide

/-- C7 counterexample: a claimed request whose dataset resolution fails
on the designed fetch-failure path (urlretrieve ValueError) is answered
with the bare ParameterError message — the validation-error form — and
not with the unexpected-error marker form the claim asserts. -/
theorem C7_validation_form_counterexample :
    (responseComplete envValueErr { params := pValid, headers := [], body := [] }).request.body
      = [resolveFailMsg "a.geojson"]
    ∧ resolveFailMsg "a.geojson" ≠ "Unhandled error" := by
  have h1 := handle_requests_of_geojson_error envValueErr pValid reqValid
    (.parameterError (resolveFailMsg "a.geojson")) validateParams_pValid (by decide)
  have h2 := dispatcher_error_form envValueErr pValid [] []
    (.parameterError (resolveFailMsg "a.geojson")) (by decide) (by rw [h1])
  rw [h2]
  exact ⟨rfl, by decide⟩

/-- C7 amended: a resolver failure on a claimed request surfaces in the
validation-error form (bare message) when it is the ParameterError that
_resolve_url raises for a ValueError fetch failure, and in the
unexpected-error form (marker plus traceback) only when some other
exception escapes the resolver. -/
theorem C7_resolution_error_surfacing (env : Env) (params : Params) (req : RenderRequest)
    (e : HErr) (hs : List (String × String)) (bs : List String)
    (hc : claimsRequest params = true) (hv : validateParams params = .ok req)
    (hfail : (_resolve_url env req.geojson).result = .error e
      ∨ (hasTypeTok req.style = false
          ∧ (∃ gp, (_resolve_url env req.geojson).result = .ok gp)
          ∧ (_resolve_url env req.style).result = .error e)) :
    (responseComplete env { params := params, headers := hs, body := bs }).request.body
      = match e with
        | .parameterError m => [m]
        | .pyError _ _ => ["Unhandled error", format_exc e] := by
  have he : (handle_requests env params).result = .error e := by
    rcases hfail with hf | ⟨hnt, ⟨gp, hok⟩, hf⟩
    · have h1 := handle_requests_of_geojson_error env params req e hv hf
      rw [h1]
    · exact handle_requests_of_style_error env params req e gp hv hok hnt hf
  rw [dispatcher_error_form env params hs bs e hc he]
  cases e <;> rfl

/-- C7 witness: concrete instances of the two surfacing forms — the
ValueError path answers with the bare message, the URLError path with
the marker form. -/
theorem C7_resolution_error_surfacing_witness :
    (responseComplete envValueErr { params := pValid, headers := [("A", "b")], body := ["old"] }).request.body
      = [resolveFailMsg "a.geojson"]
    ∧ (responseComplete envNetErr { params := pValid, headers := [], body := [] }).request.body
      = ["Unhandled error", format_exc (.pyError "URLError" "unreachable host")] :=
  ⟨C7_resolution_error_surfacing envValueErr pValid reqValid
      (.parameterError (resolveFailMsg "a.geojson")) [("A", "b")] ["old"]
      (by decide) validateParams_pValid (Or.inl (by decide)),
   C7_resolution_error_surfacing envNetErr pValid reqValid
      (.pyError "URLError" "unreachable host") [] []
      (by decide) validateParams_pValid (Or.inl (by decide))⟩

/-- C8 counterexample: a claimed request failing validation (GEOJSON
missing) does emit a log message — the dispatcher logs the exception's
type name for every exception, ParameterError included — contradicting
the claim that no log message is emitted for validation failures. -/
theorem C8_validation_logging_counterexample :
    (responseComplete envValueErr
        { params := paramsOf [("SERVICE", "rendergeojson")], headers := [], body := [] }).log
      = ["RenderGeojson.responseComplete :: ParameterError"]
    ∧ ["RenderGeojson.responseComplete :: ParameterError"] ≠ ([] : List String) :=
  ⟨by decide, by decide⟩

/-- C8 amended: a claimed request failing validation is answered with
Content-type text/plain and exactly the message as body (no marker, no
trace), and the error's type name is logged — one log line — while the
full detail/trace is logged only for non-ParameterError failures. -/
theorem C8_error_logging (env : Env) (params : Params) (hs : List (String × String))
    (bs : List String) (hc : claimsRequest params = true) :
    (∀ m, validateParams params = .error (.parameterError m) →
      (responseComplete env { params := params, headers := hs, body := bs }).request.headers
          = [("Content-type", "text/plain")]
      ∧ (responseComplete env { params := params, headers := hs, body := bs }).request.body = [m]
      ∧ (responseComplete env { params := params, headers := hs, body := bs }).log
          = ["RenderGeojson.responseComplete :: ParameterError"])
    ∧ (∀ n mg, (handle_requests env params).result = .error (.pyError n mg) →
      (responseComplete env { params := params, headers := hs, body := bs }).log
        = ["RenderGeojson.responseComplete :: " ++ n,
           "RenderGeojson.responseComplete ::  " ++ format_exc (.pyError n mg)]) := by
  constructor
  · intro m hm
    have he : (handle_requests env params).result = .error (.parameterError m) := by
      rw [handle_requests_of_validation_error env params _ hm]
    rw [dispatcher_error_form env params hs bs _ hc he]
    exact ⟨rfl, rfl, rfl⟩
  · intro n mg he
    rw [dispatcher_error_form env params hs bs _ hc he]

/-- C8 witness: a claimed request with GEOJSON missing gets text/plain,
the bare message as body, and exactly the type-name log line. -/
theorem C8_error_logging_witness :
    (responseComplete envValueErr
        { params := paramsOf [("SERVICE", "RenderGeoJSON")], headers := [("A", "b")],
          body := ["old"] }).request.headers
      = [("Content-type", "text/plain")]
    ∧ (responseComplete envValueErr
        { params := paramsOf [("SERVICE", "RenderGeoJSON")], headers := [("A", "b")],
          body := ["old"] }).request.body
      = ["Parameter GEOJSON must be set."]
    ∧ (responseComplete envValueErr
        { params := paramsOf [("SERVICE", "RenderGeoJSON")], headers := [("A", "b")],
          body := ["old"] }).log
      = ["RenderGeojson.responseComplete :: ParameterError"] :=
  (C8_error_logging envValueErr (paramsOf [("SERVICE", "RenderGeoJSON")]) [("A", "b")] ["old"]
      (by decide)).1 "Parameter GEOJSON must be set." (by decide)

/-- C9: a request whose SERVICE parameter is absent or does not
upper-case to RENDERGEOJSON is passed through untouched (no clear, no
header, no body, no log); a claimed request is processed exactly as if
its pre-existing response had any other content (it is cleared first),
ends with exactly one Content-type header, and a nonempty body. -/
theorem C9_dispatcher_claiming (env : Env) (req : Request) (h0 : List (String × String))
    (b0 : List String) :
    (claimsRequest req.params = false →
      responseComplete env req = { request := req, log := [] })
    ∧ (claimsRequest req.params = true →
      responseComplete env req
          = responseComplete env { params := req.params, headers := h0, body := b0 }
      ∧ (∃ ct, (responseComplete env req).request.headers = [("Content-type", ct)])
      ∧ (responseComplete env req).request.body ≠ []) := by
  constructor
  · intro h
    simp [responseComplete, h]
  · intro h
    refine ⟨by simp only [responseComplete, h, if_true], ?_, ?_⟩
    · cases hout : (handle_requests env req.params).result with
      | ok s => exact ⟨"image/png", by simp [responseComplete, h, hout, setResponseHeader]⟩
      | error e =>
        cases e <;>
          exact ⟨"text/plain", by simp [responseComplete, h, hout, setResponseHeader]⟩
    · cases hout : (handle_requests env req.params).result with
      | ok s => simp [responseComplete, h, hout]
      | error e => cases e <;> simp [responseComplete, h, hout]

/-- C9 witness: a SERVICE=WMS request is passed through untouched, and a
claimed request ends with a single Content-type header. -/
theorem C9_dispatcher_claiming_witness :
    responseComplete envValueErr
        { params := paramsOf [("SERVICE", "WMS")], headers := [("A", "b")], body := ["old"] }
      = { request :=
            { params := paramsOf [("SERVICE", "WMS")], headers := [("A", "b")],
              body := ["old"] },
          log := [] }
    ∧ ∃ ct, (responseComplete envValueErr
        { params := pValid, headers := [("A", "b")], body := ["old"] }).request.headers
        = [("Content-type", ct)] :=
  ⟨(C9_dispatcher_claiming envValueErr
      { params := paramsOf [("SERVICE", "WMS")], headers := [("A", "b")], body := ["old"] }
      [] []).1 (by decide),
   ((C9_dispatcher_claiming envValueErr
      { params := pValid, headers := [("A", "b")], body := ["old"] } [] []).2 (by decide)).2.1⟩

/-- C10: with a configured prefix, os.path.join discards the prefix when
the reference is an absolute path, so an existing absolute path anywhere
on the filesystem is returned as the local resolution result. -/
theorem C10_absolute_ref_resolution (env : Env) (p url : String)
    (hp : env.prefix_path = some p) (habs : startsWithSlash url = true) :
    pathJoin p url = url
    ∧ (env.pathExists url = true →
        _resolve_url env url = { result := .ok url, fetched := [] }) := by
  have hj : pathJoin p url = url := by simp [pathJoin, habs]
  exact ⟨hj, fun hex => by simp [_resolve_url, hp, hj, hex]⟩

/-- C10 witness: with prefix /data configured, the absolute reference
/tmp/other.qml resolves to itself, outside the prefix directory. -/
theorem C10_absolute_ref_resolution_witness :
    _resolve_url envLocal "/tmp/other.qml" = { result := .ok "/tmp/other.qml", fetched := [] } :=
  (C10_absolute_ref_resolution envLocal "/data" "/tmp/other.qml" rfl (by decide)).2 rfl

end RenderGeojson
